import Mathlib

/-!
# StockCerebro — scoring & aggregation engine, shallow embedding

Shallow embedding of the StockCerebro scoring pipeline.  The repository's
`src/` tree contains only the React/TypeScript frontend; the FastAPI backend
(grade table, `ScorecardEngine`, `ConsensusCombiner`, `deaccumulate`, cache
TTLs) is absent, so those parts are modelled from the spec and are marked
`Modelled from the spec:` in their doc comments.  Everything else is a direct
translation of the frontend TypeScript under `src/frontend/src`.

Numbers are modelled as `ℚ` (JavaScript numbers used only at values where
binary floating point is exact for the properties at stake); `null | undefined`
becomes `Option`.
-/

namespace StockCerebro

/-- Letter grades, best (`A`) to worst (`F`). -/
inductive Grade
  | A | B | C | D | F
  deriving DecidableEq, Repr

/-- Numeric quality of a grade, `F = 0` up to `A = 4`; used to state
monotonicity of the grade table. -/
def gradeRank : Grade → ℕ
  | .A => 4
  | .B => 3
  | .C => 2
  | .D => 1
  | .F => 0

/-- The letter string of a grade, as the backend serializes it into the
`grade: string` fields of `src/frontend/src/types/stock.ts`. -/
def gradeLetter : Grade → String
  | .A => "A"
  | .B => "B"
  | .C => "C"
  | .D => "D"
  | .F => "F"

/-- Modelled from the spec: the shared backend grade-boundary table (§8);
the backend source is not under `src/`.  `score≥80→A, ≥65→B, ≥50→C, ≥30→D,
else F`. -/
def grade (s : ℚ) : Grade :=
  if 80 ≤ s then .A
  else if 65 ≤ s then .B
  else if 50 ≤ s then .C
  else if 30 ≤ s then .D
  else .F

/-- Executable model of JavaScript `String.prototype.startsWith`. -/
def jsStartsWith (s p : String) : Bool :=
  p.data.isPrefixOf s.data

/-- `getGradeColor` from `src/frontend/src/utils/grading.ts`: Tailwind text
colour class for a letter-grade string (matched by first letter). -/
def getGradeColor (grade : String) : String :=
  if jsStartsWith grade "A" then "text-green-400"
  else if jsStartsWith grade "B" then "text-emerald-400"
  else if jsStartsWith grade "C" then "text-yellow-400"
  else if jsStartsWith grade "D" then "text-orange-400"
  else if jsStartsWith grade "F" then "text-red-400"
  else "text-gray-400"

/-- `getScoreColor` from `src/frontend/src/utils/grading.ts`: hex colour for a
0–100 score, five bands with boundaries 80, 65, 45, 30. -/
def getScoreColor (score : ℚ) : String :=
  if score ≥ 80 then "#22c55e"
  else if score ≥ 65 then "#4ade80"
  else if score ≥ 45 then "#eab308"
  else if score ≥ 30 then "#f97316"
  else "#ef4444"

/-- The score line partitions into the five grade regions. -/
lemma grade_cases (s : ℚ) :
    (80 ≤ s ∧ grade s = .A) ∨ (65 ≤ s ∧ s < 80 ∧ grade s = .B) ∨
    (50 ≤ s ∧ s < 65 ∧ grade s = .C) ∨ (30 ≤ s ∧ s < 50 ∧ grade s = .D) ∨
    (s < 30 ∧ grade s = .F) := by
  unfold grade
  split_ifs with h1 h2 h3 h4 <;> push_neg at *
  · exact Or.inl ⟨h1, rfl⟩
  · exact Or.inr (Or.inl ⟨h2, h1, rfl⟩)
  · exact Or.inr (Or.inr (Or.inl ⟨h3, h2, rfl⟩))
  · exact Or.inr (Or.inr (Or.inr (Or.inl ⟨h4, h3, rfl⟩)))
  · exact Or.inr (Or.inr (Or.inr (Or.inr ⟨h4, rfl⟩)))

/-- The grade table is exact band-wise. -/
lemma grade_bands (s : ℚ) :
    (grade s = .A ↔ 80 ≤ s) ∧
    (grade s = .B ↔ 65 ≤ s ∧ s < 80) ∧
    (grade s = .C ↔ 50 ≤ s ∧ s < 65) ∧
    (grade s = .D ↔ 30 ≤ s ∧ s < 50) ∧
    (grade s = .F ↔ s < 30) := by
  rcases grade_cases s with ⟨h1, e⟩ | ⟨h1, h2, e⟩ | ⟨h1, h2, e⟩ | ⟨h1, h2, e⟩ |
      ⟨h1, e⟩ <;>
    rw [e] <;> refine ⟨?_, ?_, ?_, ?_, ?_⟩ <;> simp [not_le, not_lt] <;>
    first
      | linarith
      | (constructor <;> linarith)
      | (rintro a ; linarith)

/-- The grade table is monotone: a higher score never gets a worse grade. -/
lemma grade_monotone {s t : ℚ} (h : s ≤ t) :
    gradeRank (grade s) ≤ gradeRank (grade t) := by
  rcases grade_cases s with ⟨h1, e⟩ | ⟨h1, h2, e⟩ | ⟨h1, h2, e⟩ | ⟨h1, h2, e⟩ |
      ⟨h1, e⟩ <;>
    rcases grade_cases t with ⟨g1, f⟩ | ⟨g1, g2, f⟩ | ⟨g1, g2, f⟩ | ⟨g1, g2, f⟩ |
        ⟨g1, f⟩ <;>
      rw [e, f] <;> first | decide | (exfalso ; linarith)

/-- `getScoreColor` is exact band-wise: its boundaries are 80, 65, 45, 30. -/
lemma getScoreColor_bands (s : ℚ) :
    (80 ≤ s → getScoreColor s = "#22c55e") ∧
    (65 ≤ s ∧ s < 80 → getScoreColor s = "#4ade80") ∧
    (45 ≤ s ∧ s < 65 → getScoreColor s = "#eab308") ∧
    (30 ≤ s ∧ s < 45 → getScoreColor s = "#f97316") ∧
    (s < 30 → getScoreColor s = "#ef4444") := by
  unfold getScoreColor
  split_ifs with h1 h2 h3 h4 <;> push_neg at * <;>
    refine ⟨?_, ?_, ?_, ?_, ?_⟩ <;>
    first
      | (intro a ; rfl)
      | (intro a ; exfalso ; linarith)

/-- C1, counterexample: the claim as stated is false.  Scores 44 and 47 get the
same letter grade `D` (both lie in the grade band `[30, 50)`), but
`getScoreColor` gives them different colours, so its bands do not sit at the
grade boundaries (it switches at 45, not 50); moreover `getScoreColor` returns
hex colours while `getGradeColor` returns Tailwind class strings, so a band
colour never equals the colour assigned to the corresponding letter grade. -/
theorem C1_getScoreColor_counterexample :
    grade 44 = grade 47 ∧ getScoreColor 44 ≠ getScoreColor 47 ∧
    getScoreColor 47 ≠ getGradeColor (gradeLetter (grade 47)) := by
  refine ⟨by norm_num [grade], ?_, ?_⟩ <;> decide

/-- C1, amended: the grade boundary table is exact (score≥80→A, ≥65→B, ≥50→C,
≥30→D, else F) and `grade` is monotone non-decreasing in the score;
`getScoreColor` selects its five colour bands at boundaries 80, 65, 45, 30 —
agreeing with the grade boundaries except the middle one, which is 45 rather
than 50 — and returns fixed hex colours, while `getGradeColor` maps the five
letter grades to Tailwind class strings. -/
theorem C1_grading_bands :
    (∀ s : ℚ,
      (grade s = .A ↔ 80 ≤ s) ∧
      (grade s = .B ↔ 65 ≤ s ∧ s < 80) ∧
      (grade s = .C ↔ 50 ≤ s ∧ s < 65) ∧
      (grade s = .D ↔ 30 ≤ s ∧ s < 50) ∧
      (grade s = .F ↔ s < 30)) ∧
    (∀ s t : ℚ, s ≤ t → gradeRank (grade s) ≤ gradeRank (grade t)) ∧
    (∀ s : ℚ,
      (80 ≤ s → getScoreColor s = "#22c55e") ∧
      (65 ≤ s ∧ s < 80 → getScoreColor s = "#4ade80") ∧
      (45 ≤ s ∧ s < 65 → getScoreColor s = "#eab308") ∧
      (30 ≤ s ∧ s < 45 → getScoreColor s = "#f97316") ∧
      (s < 30 → getScoreColor s = "#ef4444")) ∧
    (getGradeColor (gradeLetter .A) = "text-green-400" ∧
     getGradeColor (gradeLetter .B) = "text-emerald-400" ∧
     getGradeColor (gradeLetter .C) = "text-yellow-400" ∧
     getGradeColor (gradeLetter .D) = "text-orange-400" ∧
     getGradeColor (gradeLetter .F) = "text-red-400") :=
  ⟨grade_bands, fun _ _ h => grade_monotone h, getScoreColor_bands, by decide⟩

/-- C1 witness: the amended theorem evaluated at concrete scores. -/
theorem C1_grading_bands_witness :
    ((30 : ℚ) ≤ 40 ∧ gradeRank (grade 30) ≤ gradeRank (grade 40)) ∧
    ((80 : ℚ) ≤ 90 ∧ getScoreColor 90 = "#22c55e") :=
  ⟨⟨by norm_num, C1_grading_bands.2.1 30 40 (by norm_num)⟩,
   ⟨by norm_num, (C1_grading_bands.2.2.1 90).1 (by norm_num)⟩⟩

/-! ## Market hours (`src/frontend/src/utils/marketHours.ts`) -/

/-- `isMarketOpen` from `src/frontend/src/utils/marketHours.ts`, parameterized
by the UTC weekday (0 = Sunday … 6 = Saturday) and UTC hour that the source
reads from the clock.  Weekend → `false`; otherwise open iff
`utcHour >= 14 && utcHour < 21`. -/
def isMarketOpen (utcDay utcHour : ℕ) : Bool :=
  if utcDay == 0 || utcDay == 6 then false
  else decide (14 ≤ utcHour) && decide (utcHour < 21)

/-- `getRefreshInterval` from `src/frontend/src/utils/marketHours.ts`:
60 000 ms while the market is open, 300 000 ms otherwise. -/
def getRefreshInterval (utcDay utcHour : ℕ) : ℕ :=
  if isMarketOpen utcDay utcHour then 60000 else 300000

/-- C8: `isMarketOpen` is true exactly on UTC weekdays Monday–Friday with UTC
hour in `[14, 21)` (hence false on every Saturday and Sunday instant), and
`getRefreshInterval` returns 60 000 ms exactly when the market is open and
300 000 ms exactly when it is not. -/
theorem C8_market_hours (day hour : ℕ) (hday : day ≤ 6) :
    (isMarketOpen day hour = true ↔
      1 ≤ day ∧ day ≤ 5 ∧ 14 ≤ hour ∧ hour < 21) ∧
    (getRefreshInterval day hour = 60000 ↔ isMarketOpen day hour = true) ∧
    (getRefreshInterval day hour = 300000 ↔ isMarketOpen day hour = false) := by
  refine ⟨?_, ?_, ?_⟩
  · unfold isMarketOpen
    split_ifs with h
    · simp only [beq_iff_eq, Bool.or_eq_true] at h
      simp
      omega
    · simp only [beq_iff_eq, Bool.or_eq_true] at h
      push_neg at h
      simp
      omega
  · unfold getRefreshInterval
    split_ifs with h <;> simp [h]
  · unfold getRefreshInterval
    split_ifs with h <;> simp [h]

/-- C8 witness: Wednesday 15:00 UTC is inside market hours. -/
theorem C8_market_hours_witness :
    (3 ≤ 6) ∧
    ((isMarketOpen 3 15 = true ↔
        1 ≤ 3 ∧ 3 ≤ 5 ∧ 14 ≤ 15 ∧ 15 < 21) ∧
     (getRefreshInterval 3 15 = 60000 ↔ isMarketOpen 3 15 = true) ∧
     (getRefreshInterval 3 15 = 300000 ↔ isMarketOpen 3 15 = false)) :=
  ⟨by decide, C8_market_hours 3 15 (by decide)⟩

/-! ## Ticker validation (`src/frontend/src/api/client.ts`) -/

/-- `validateTicker` from `src/frontend/src/api/client.ts`, parameterized by
the outcome of the underlying GET `/api/stock/{ticker}/validate` request
(fulfilled, or rejected with an error whose payload we model as a string):
the `try/catch` turns fulfillment into `true` and any rejection into
`false`. -/
def validateTicker (outcome : Except String Unit) : Bool :=
  match outcome with
  | .ok _ => true
  | .error _ => false

/-- C10: `validateTicker` is a total boolean function of the request outcome —
it returns `true` exactly when the request succeeds and `false` exactly when
the request fails for any reason; the ticker-not-found rejection becomes the
boolean `false`, never a propagated exception. -/
theorem C10_validateTicker_total (outcome : Except String Unit) :
    (validateTicker outcome = true ↔ outcome = .ok ()) ∧
    (validateTicker outcome = false ↔ ∃ e, outcome = .error e) := by
  cases outcome <;> simp [validateTicker]

/-! ## Macro risk (`src/frontend/src/components/macro/MacroDashboard.tsx`) -/

/-- One tailwind/headwind factor of the AI narrative artifact (shape taken
from `FactorCard` in `MacroDashboard.tsx` and the spec's narrative-provider
interface, §6). -/
structure MacroFactor where
  title : String
  explanation : String
  impact : String
  category : String
  deriving DecidableEq, Repr

/-- The macro-risk payload as `MacroDashboard.tsx` consumes it (field set read
off the component; the `MacroRiskResponse` interface itself is not under
`src/`).  Absent optional fields are `none`. -/
structure MacroRiskResponse where
  tailwinds : List MacroFactor
  headwinds : List MacroFactor
  summary : Option String
  analyzed_at : Option String
  model_used : Option String
  error : Option String
  deriving DecidableEq, Repr

/-- JavaScript truthiness of an optional string: `undefined`/`null` and the
empty string are falsy. -/
def truthyStr : Option String → Bool
  | none => false
  | some s => !(s == "")

/-- What `MacroDashboard` renders: either only the "Macro Analysis
Unavailable" card carrying the error text, or the dashboard with the
tailwind/headwind factor lists (and optionally the summary card). -/
inductive MacroRender
  | unavailable (message : String)
  | dashboard (summaryShown : Bool) (tailwinds headwinds : List MacroFactor)
  deriving DecidableEq, Repr

/-- `MacroDashboard` from `MacroDashboard.tsx`: `if (data.error)` renders the
unavailable card and returns early; otherwise the factor grid is rendered. -/
def MacroDashboard (data : MacroRiskResponse) : MacroRender :=
  if truthyStr data.error then .unavailable (data.error.getD "")
  else .dashboard (truthyStr data.summary) data.tailwinds data.headwinds

/-- The factor cards appearing in a render. -/
def factorsRendered : MacroRender → List MacroFactor
  | .unavailable _ => []
  | .dashboard _ tw hw => tw ++ hw

/-- The summary shape of the AI narrative artifact (§6). -/
structure NarrativeArtifact where
  tailwinds : List MacroFactor
  headwinds : List MacroFactor
  summary : String
  model_used : String
  deriving DecidableEq, Repr

/-- Modelled from the spec: backend `getMacroRisk` (§6, §7); the backend
source is not under `src/`.  When the AI-narrative provider is unconfigured
or erroring it returns a structured "unavailable" payload with `error` set,
never a propagated fatal error; on success it returns the artifact. -/
def getMacroRisk (provider : Except String NarrativeArtifact) : MacroRiskResponse :=
  match provider with
  | .error msg =>
      { tailwinds := [], headwinds := [], summary := none,
        analyzed_at := none, model_used := none, error := some msg }
  | .ok art =>
      { tailwinds := art.tailwinds, headwinds := art.headwinds,
        summary := some art.summary, analyzed_at := none,
        model_used := some art.model_used, error := none }

/-- C6: a provider failure becomes a structured error payload (a
`MacroRiskResponse` with `error` set and no thrown exception); whenever the
payload's error field is set (truthy), `MacroDashboard` renders only the
unavailable card carrying that exact error text and no tailwind or headwind
factor; without an error it renders exactly the tailwinds and headwinds
lists. -/
theorem C6_macro_error_payload :
    (∀ msg : String, (getMacroRisk (.error msg)).error = some msg ∧
      factorsRendered (MacroDashboard (getMacroRisk (.error msg))) = []) ∧
    (∀ (data : MacroRiskResponse) (msg : String),
      data.error = some msg → msg ≠ "" →
        MacroDashboard data = .unavailable msg ∧
        factorsRendered (MacroDashboard data) = []) ∧
    (∀ data : MacroRiskResponse, truthyStr data.error = false →
        MacroDashboard data =
          .dashboard (truthyStr data.summary) data.tailwinds data.headwinds) := by
  refine ⟨?_, ?_, ?_⟩
  · intro msg
    by_cases h : msg = "" <;>
      simp [getMacroRisk, MacroDashboard, truthyStr, factorsRendered, h]
  · intro data msg he hne
    have ht : truthyStr data.error = true := by simp [truthyStr, he, hne]
    constructor
    · simp [MacroDashboard, truthyStr, he, hne]
    · simp [MacroDashboard, ht, factorsRendered]
  · intro data hf
    simp [MacroDashboard, hf]

/-- C6 witness: a concrete unconfigured-provider payload with a pending
tailwind factor renders only the unavailable card. -/
theorem C6_macro_error_payload_witness :
    ((getMacroRisk (.error "OpenAI API key not configured")).error =
        some "OpenAI API key not configured" ∧
      factorsRendered
        (MacroDashboard (getMacroRisk (.error "OpenAI API key not configured"))) = []) ∧
    (MacroDashboard
        { tailwinds := [⟨"Rate cuts", "Lower discount rates", "high", "rates"⟩],
          headwinds := [], summary := none, analyzed_at := none,
          model_used := none, error := some "upstream timeout" } =
      .unavailable "upstream timeout") :=
  ⟨C6_macro_error_payload.1 "OpenAI API key not configured",
   (C6_macro_error_payload.2.1
      { tailwinds := [⟨"Rate cuts", "Lower discount rates", "high", "rates"⟩],
        headwinds := [], summary := none, analyzed_at := none,
        model_used := none, error := some "upstream timeout" }
      "upstream timeout" rfl (by decide)).1⟩

/-! ## Signals, consensus and the scorecard engine -/

/-- Buy/sell signals, worst (`strongSell`) to best (`strongBuy`). -/
inductive Signal
  | strongSell | sell | hold | buy | strongBuy
  deriving DecidableEq, Repr

/-- Bullishness of a signal, `STRONG SELL = 0` up to `STRONG BUY = 4`. -/
def signalRank : Signal → ℕ
  | .strongSell => 0
  | .sell => 1
  | .hold => 2
  | .buy => 3
  | .strongBuy => 4

/-- The label string of a signal as the backend serializes it into the
`signal: string` fields of `src/frontend/src/types/stock.ts`. -/
def signalLabel : Signal → String
  | .strongSell => "STRONG SELL"
  | .sell => "SELL"
  | .hold => "HOLD"
  | .buy => "BUY"
  | .strongBuy => "STRONG BUY"

/-- Modelled from the spec: the 5-tier signal mapping (§8) — five contiguous
non-overlapping bands of `[0,100]`, monotone; the backend source is not under
`src/`, so the band boundaries are taken as the frontend's five score bands
in `getScoreColor` (80, 65, 45, 30). -/
def signalOf (s : ℚ) : Signal :=
  if 80 ≤ s then .strongBuy
  else if 65 ≤ s then .buy
  else if 45 ≤ s then .hold
  else if 30 ≤ s then .sell
  else .strongSell

/-- The weaker (less bullish) of two signals — "capping" a signal. -/
def minSignal (a b : Signal) : Signal :=
  if signalRank a ≤ signalRank b then a else b

/-- Modelled from the spec: ConsensusCombiner's fixed daily weight (§4.5). -/
def wDaily : ℚ := 0.50

/-- Modelled from the spec: ConsensusCombiner's fixed weekly weight (§4.5). -/
def wWeekly : ℚ := 0.35

/-- Modelled from the spec: ConsensusCombiner's fixed hourly weight (§4.5). -/
def wHourly : ℚ := 0.15

/-- Modelled from the spec: `ConsensusCombiner.combine` (§4.5); the backend
source is not under `src/`.  Fixed weights daily 50%, weekly 35%, hourly 15%;
an unavailable timeframe's weight is redistributed proportionally among the
remaining timeframes (each present timeframe keeps weight `wᵢ / Σ present
wⱼ`); all three unavailable yields no consensus. -/
def combine (daily weekly hourly : Option ℚ) : Option ℚ :=
  let total : ℚ :=
    (if daily.isSome then wDaily else 0) +
    (if weekly.isSome then wWeekly else 0) +
    (if hourly.isSome then wHourly else 0)
  if total = 0 then none
  else some ((daily.getD 0 * wDaily + weekly.getD 0 * wWeekly +
              hourly.getD 0 * wHourly) / total)

/-- The total base weight of the present timeframes. -/
def presentTotal (pd pw ph : Bool) : ℚ :=
  (if pd then wDaily else 0) + (if pw then wWeekly else 0) +
    (if ph then wHourly else 0)

/-- The `ScoreBreakdown` record of `src/frontend/src/types/stock.ts`. -/
structure ScoreBreakdown where
  fundamental_score : ℚ
  fundamental_weight : ℚ
  technical_daily_score : ℚ
  technical_weekly_score : ℚ
  technical_hourly_score : ℚ
  technical_consensus : ℚ
  technical_weight : ℚ
  deriving DecidableEq, Repr

/-- JavaScript `Math.round`: round half toward positive infinity. -/
def jsRound (q : ℚ) : ℤ := ⌊q + 1 / 2⌋

namespace ScoreBreakdownView

/-- `fundPct` from `ScoreBreakdownView`: `Math.round(fundamental_weight * 100)`. -/
def fundPct (b : ScoreBreakdown) : ℤ := jsRound (b.fundamental_weight * 100)

/-- `techPct` from `ScoreBreakdownView`: `Math.round(technical_weight * 100)`. -/
def techPct (b : ScoreBreakdown) : ℤ := jsRound (b.technical_weight * 100)

/-- `hasFundamental` from `ScoreBreakdownView`: `fundPct > 0`. -/
def hasFundamental (b : ScoreBreakdown) : Bool := fundPct b > 0

/-- One row of the breakdown list: label, score, weight percentage. -/
structure Row where
  label : String
  score : ℚ
  weight : ℤ
  deriving DecidableEq, Repr

/-- The `items` array of `ScoreBreakdownView`: an optional `Fundamental` row
followed by the three technical rows whose weight percentages multiply
`techPct` by `0.50`, `0.35` and `0.15`. -/
def items (b : ScoreBreakdown) : List Row :=
  (if hasFundamental b then
      [⟨"Fundamental", b.fundamental_score, fundPct b⟩]
    else []) ++
  [⟨"Technical (Daily)", b.technical_daily_score,
      jsRound ((techPct b : ℚ) * 0.50)⟩,
   ⟨"Technical (Weekly)", b.technical_weekly_score,
      jsRound ((techPct b : ℚ) * 0.35)⟩,
   ⟨"Technical (Hourly)", b.technical_hourly_score,
      jsRound ((techPct b : ℚ) * 0.15)⟩]

/-- The "ETF — Technical analysis only" note is rendered iff
`!hasFundamental`. -/
def etfNoteShown (b : ScoreBreakdown) : Bool := !hasFundamental b

end ScoreBreakdownView

/-- The slice of a `FundamentalAnalysis` that the scorecard engine reads. -/
structure FundamentalSummary where
  overall_score : ℚ
  grade : Grade
  confidence : ℚ
  deriving DecidableEq, Repr

/-- Modelled from the spec: the fixed fundamental weight for equities
(§4.6, "fixed global constants, e.g. 0.5/0.5"). -/
def fundamentalWeightEquity : ℚ := 0.5

/-- Modelled from the spec: the fixed technical-only confidence constant
(§4.6). -/
def technicalOnlyConfidence : ℚ := 0.5

/-- The scorecard produced by the engine (the fields of `Scorecard` in
`src/frontend/src/types/stock.ts` that the modelled engine determines). -/
structure Scorecard where
  overall_score : ℚ
  grade : Grade
  signal : Signal
  score_breakdown : ScoreBreakdown
  fundamental : Option FundamentalSummary
  confidence : ℚ
  override_applied : Bool
  override_reason : String
  deriving DecidableEq, Repr

/-- Modelled from the spec: `ScorecardEngine.build` (§4.6); the backend source
is not under `src/`.  `overall_score = fundamental_weight ×
fundamental.overall_score + technical_weight × technical_consensus`; for ETFs
(no fundamental analysis) `fundamental_weight = 0` and scoring is
technical-only.  Override rule: weak fundamental grade (below C) and strong
technical signal (BUY or STRONG BUY) cap the final signal at HOLD (the weaker
of the raw composite signal and HOLD) with `override_applied = true` and a
human-readable reason. -/
def ScorecardEngine.build (fundamental : Option FundamentalSummary)
    (technicalConsensus : ℚ) (dailySignal : Signal)
    (dailyScore weeklyScore hourlyScore : ℚ) : Scorecard :=
  let fw : ℚ := if fundamental.isSome then fundamentalWeightEquity else 0
  let tw : ℚ := 1 - fw
  let fscore : ℚ := match fundamental with
    | some f => f.overall_score
    | none => 0
  let composite := fw * fscore + tw * technicalConsensus
  let rawSignal := signalOf composite
  let weakFund : Bool := match fundamental with
    | some f => gradeRank f.grade < gradeRank Grade.C
    | none => false
  let strongTech : Bool := dailySignal = Signal.buy ∨ dailySignal = Signal.strongBuy
  let applyOverride := weakFund && strongTech
  { overall_score := composite
    grade := grade composite
    signal := if applyOverride then minSignal rawSignal .hold else rawSignal
    score_breakdown :=
      { fundamental_score := fscore
        fundamental_weight := fw
        technical_daily_score := dailyScore
        technical_weekly_score := weeklyScore
        technical_hourly_score := hourlyScore
        technical_consensus := technicalConsensus
        technical_weight := tw }
    fundamental := fundamental
    confidence := match fundamental with
      | some f => f.confidence
      | none => technicalOnlyConfidence
    override_applied := applyOverride
    override_reason :=
      if applyOverride then
        "Weak fundamentals cap strong technical signal at HOLD"
      else "" }

/-- Capping at HOLD yields HOLD whenever the capped signal is HOLD or
stronger. -/
lemma minSignal_hold_of_le (a : Signal)
    (h : signalRank .hold ≤ signalRank a) : minSignal a .hold = .hold := by
  revert h
  cases a <;> decide

/-- Capping never strengthens a signal. -/
lemma minSignal_rank_le (a b : Signal) :
    signalRank (minSignal a b) ≤ signalRank a := by
  cases a <;> cases b <;> decide

/-- C2, counterexample: the claim as stated is false.  With fundamental grade
F and daily technical signal STRONG BUY but a raw composite deep in the
STRONG SELL band, the override fires (`override_applied = true`) yet the
"capped at HOLD" signal is not HOLD — a cap can only lower, and the raw
signal was already below HOLD. -/
theorem C2_override_counterexample :
    (ScorecardEngine.build (some ⟨5, .F, 1/2⟩) 5 .strongBuy 5 5 5).override_applied
        = true ∧
    (ScorecardEngine.build (some ⟨5, .F, 1/2⟩) 5 .strongBuy 5 5 5).signal ≠
        .hold := by
  constructor <;>
    norm_num [ScorecardEngine.build, fundamentalWeightEquity, signalOf,
      minSignal, signalRank, gradeRank] <;>
    decide

/-- C2, amended: whenever the fundamental grade is below the C threshold and
the daily technical signal is BUY or STRONG BUY, `ScorecardEngine.build` sets
`override_applied = true` with a human-readable reason and caps the signal at
HOLD — the final signal is the weaker of the raw composite signal and HOLD,
hence exactly HOLD whenever the raw signal is HOLD or stronger; and (for all
inputs) the override only ever downgrades a signal, never upgrades one. -/
theorem C2_override_cap :
    (∀ (f : FundamentalSummary) (tc : ℚ) (ds : Signal) (d w h : ℚ),
      gradeRank f.grade < gradeRank Grade.C →
      ds = Signal.buy ∨ ds = Signal.strongBuy →
      (ScorecardEngine.build (some f) tc ds d w h).override_applied = true ∧
      (ScorecardEngine.build (some f) tc ds d w h).override_reason ≠ "" ∧
      (ScorecardEngine.build (some f) tc ds d w h).signal =
        minSignal (signalOf
          (ScorecardEngine.build (some f) tc ds d w h).overall_score) .hold ∧
      (signalRank Signal.hold ≤ signalRank (signalOf
          (ScorecardEngine.build (some f) tc ds d w h).overall_score) →
        (ScorecardEngine.build (some f) tc ds d w h).signal = .hold)) ∧
    (∀ (fund : Option FundamentalSummary) (tc : ℚ) (ds : Signal) (d w h : ℚ),
      signalRank (ScorecardEngine.build fund tc ds d w h).signal ≤
        signalRank (signalOf
          (ScorecardEngine.build fund tc ds d w h).overall_score)) := by
  constructor
  · intro f tc ds d w h hweak hstrong
    have hw : decide (gradeRank f.grade < gradeRank Grade.C) = true := by
      simp [hweak]
    have hs : decide (ds = Signal.buy ∨ ds = Signal.strongBuy) = true := by
      simp [hstrong]
    refine ⟨?_, ?_, ?_, ?_⟩
    · simp [ScorecardEngine.build, hw, hs]
    · simp [ScorecardEngine.build, hw, hs]
    · simp [ScorecardEngine.build, hw, hs]
    · intro hrank
      simp only [ScorecardEngine.build, hw, hs] at hrank ⊢
      simp only [Bool.and_self, if_pos]
      exact minSignal_hold_of_le _ hrank
  · intro fund tc ds d w h
    simp only [ScorecardEngine.build]
    split
    · exact minSignal_rank_le _ _
    · exact le_refl _

/-- C2 witness: grade F with STRONG BUY daily signal at a composite in the
BUY band yields HOLD with the override applied. -/
theorem C2_override_cap_witness :
    (gradeRank Grade.F < gradeRank Grade.C ∧
      (Signal.strongBuy = Signal.buy ∨ Signal.strongBuy = Signal.strongBuy)) ∧
    ((ScorecardEngine.build (some ⟨40, .F, 1/2⟩) 90 .strongBuy 90 90 90).override_applied
        = true ∧
     (ScorecardEngine.build (some ⟨40, .F, 1/2⟩) 90 .strongBuy 90 90 90).override_reason
        ≠ "" ∧
     (ScorecardEngine.build (some ⟨40, .F, 1/2⟩) 90 .strongBuy 90 90 90).signal =
        minSignal (signalOf
          (ScorecardEngine.build (some ⟨40, .F, 1/2⟩) 90 .strongBuy 90 90 90).overall_score)
          .hold ∧
     (signalRank Signal.hold ≤ signalRank (signalOf
          (ScorecardEngine.build (some ⟨40, .F, 1/2⟩) 90 .strongBuy 90 90 90).overall_score) →
        (ScorecardEngine.build (some ⟨40, .F, 1/2⟩) 90 .strongBuy 90 90 90).signal =
          .hold)) :=
  ⟨⟨by decide, Or.inr rfl⟩,
   C2_override_cap.1 ⟨40, .F, 1/2⟩ 90 .strongBuy 90 90 90 (by decide)
     (Or.inr rfl)⟩

/-- C3: every scorecard the engine builds satisfies `fundamental_weight +
technical_weight = 1`; for an ETF (no fundamental analysis) the fundamental
weight is 0, the `FundamentalAnalysis` is absent, the overall score equals the
technical consensus and the view shows the ETF note; and `ScoreBreakdownView`
includes a `Fundamental` row exactly when the rounded fundamental weight
percentage is positive and shows the "ETF — Technical analysis only" note
exactly when that percentage is 0. -/
theorem C3_weights_invariant :
    (∀ (fund : Option FundamentalSummary) (tc : ℚ) (ds : Signal) (d w h : ℚ),
      (ScorecardEngine.build fund tc ds d w h).score_breakdown.fundamental_weight +
        (ScorecardEngine.build fund tc ds d w h).score_breakdown.technical_weight
        = 1) ∧
    (∀ (tc : ℚ) (ds : Signal) (d w h : ℚ),
      (ScorecardEngine.build none tc ds d w h).score_breakdown.fundamental_weight
          = 0 ∧
      (ScorecardEngine.build none tc ds d w h).fundamental = none ∧
      (ScorecardEngine.build none tc ds d w h).overall_score = tc ∧
      ScoreBreakdownView.etfNoteShown
        (ScorecardEngine.build none tc ds d w h).score_breakdown = true) ∧
    (∀ b : ScoreBreakdown, 0 ≤ b.fundamental_weight →
      (((ScoreBreakdownView.items b).any
          (fun r => r.label == "Fundamental")) = true ↔
        0 < ScoreBreakdownView.fundPct b) ∧
      (ScoreBreakdownView.etfNoteShown b = true ↔
        ScoreBreakdownView.fundPct b = 0)) := by
  refine ⟨?_, ?_, ?_⟩
  · intro fund tc ds d w h
    cases fund <;> simp [ScorecardEngine.build]
  · intro tc ds d w h
    refine ⟨by simp [ScorecardEngine.build], by simp [ScorecardEngine.build],
      by simp [ScorecardEngine.build], ?_⟩
    have hfl : ⌊((2 : ℚ))⁻¹⌋ = 0 := by
      rw [Int.floor_eq_zero_iff]
      constructor <;> norm_num
    simp [ScorecardEngine.build, ScoreBreakdownView.etfNoteShown,
      ScoreBreakdownView.hasFundamental, ScoreBreakdownView.fundPct, jsRound,
      hfl]
  · intro b hfw
    have hnn : 0 ≤ ScoreBreakdownView.fundPct b := by
      unfold ScoreBreakdownView.fundPct jsRound
      rw [Int.le_floor]
      push_cast
      nlinarith
    constructor
    · unfold ScoreBreakdownView.items ScoreBreakdownView.hasFundamental
      by_cases hp : 0 < ScoreBreakdownView.fundPct b <;> simp [hp]
    · unfold ScoreBreakdownView.etfNoteShown ScoreBreakdownView.hasFundamental
      constructor
      · intro hb
        simp at hb
        omega
      · intro hb
        simp [hb]

/-- C3 witness: a half/half breakdown has a `Fundamental` row and no ETF
note. -/
theorem C3_weights_invariant_witness :
    (0 : ℚ) ≤ (1 / 2 : ℚ) ∧
    (((ScoreBreakdownView.items ⟨70, 1/2, 60, 55, 50, 58, 1/2⟩).any
        (fun r => r.label == "Fundamental")) = true ↔
      0 < ScoreBreakdownView.fundPct ⟨70, 1/2, 60, 55, 50, 58, 1/2⟩) :=
  ⟨by norm_num,
   (C3_weights_invariant.2.2 ⟨70, 1/2, 60, 55, 50, 58, 1/2⟩ (by norm_num)).1⟩

/-- C4: the consensus weights are 50% daily, 35% weekly, 15% hourly, summing
to 1; with all three timeframes present `combine` is exactly the fixed-weight
blend; a missing timeframe's weight is redistributed proportionally (hourly
missing gives daily `0.5/0.85`, weekly `0.35/0.85`) and the effective weights
of any non-empty present subset still sum to 1; and the multipliers
`ScoreBreakdownView` applies to the technical weight percentage for the
daily, weekly and hourly rows are exactly these three constants. -/
theorem C4_consensus_weights :
    (wDaily + wWeekly + wHourly = 1) ∧
    (∀ d w h : ℚ, combine (some d) (some w) (some h) =
        some (d * wDaily + w * wWeekly + h * wHourly)) ∧
    (∀ d w : ℚ, combine (some d) (some w) none =
        some (d * (wDaily / (wDaily + wWeekly)) +
              w * (wWeekly / (wDaily + wWeekly)))) ∧
    (∀ pd pw ph : Bool, (pd || pw || ph) = true →
        (if pd then wDaily / presentTotal pd pw ph else 0) +
        (if pw then wWeekly / presentTotal pd pw ph else 0) +
        (if ph then wHourly / presentTotal pd pw ph else 0) = 1) ∧
    (∀ b : ScoreBreakdown,
      ∃ pre : List ScoreBreakdownView.Row,
        ScoreBreakdownView.items b = pre ++
          [⟨"Technical (Daily)", b.technical_daily_score,
              jsRound ((ScoreBreakdownView.techPct b : ℚ) * wDaily)⟩,
           ⟨"Technical (Weekly)", b.technical_weekly_score,
              jsRound ((ScoreBreakdownView.techPct b : ℚ) * wWeekly)⟩,
           ⟨"Technical (Hourly)", b.technical_hourly_score,
              jsRound ((ScoreBreakdownView.techPct b : ℚ) * wHourly)⟩]) := by
  refine ⟨by norm_num [wDaily, wWeekly, wHourly], ?_, ?_, ?_, ?_⟩
  · intro d w h
    simp [combine, wDaily, wWeekly, wHourly]
    norm_num
    try ring
  · intro d w
    simp [combine, wDaily, wWeekly, wHourly]
    norm_num
    try ring
  · intro pd pw ph hne
    cases pd <;> cases pw <;> cases ph <;>
      simp_all [presentTotal, wDaily, wWeekly, wHourly] <;> norm_num
  · intro b
    exact ⟨_, rfl⟩

/-- C4 witness: daily and weekly present, hourly missing — the effective
weights sum to 1, and a fully-present blend is the fixed 50/35/15 mix. -/
theorem C4_consensus_weights_witness :
    ((true || true || false) = true ∧
      (if true then wDaily / presentTotal true true false else 0) +
      (if true then wWeekly / presentTotal true true false else 0) +
      (if false then wHourly / presentTotal true true false else 0) = 1) ∧
    combine (some 80) (some 60) (some 40) =
      some (80 * wDaily + 60 * wWeekly + 40 * wHourly) :=
  ⟨⟨rfl, C4_consensus_weights.2.2.2.1 true true false rfl⟩,
   C4_consensus_weights.2.1 80 60 40⟩

/-! ## Quarterly de-accumulation (modelled from the spec, §4.2) -/

/-- A raw quarterly filing: fiscal year, the number of days its reporting
period spans beyond the fiscal-year start, and the reported figure (which is
year-to-date when the span exceeds 120 days). -/
structure RawFiling where
  fiscalYear : ℤ
  spanDays : ℕ
  figure : ℚ
  deriving DecidableEq, Repr

/-- Modelled from the spec: a filing is classified year-to-date when its
reporting period spans more than 120 days beyond the fiscal-year start
(§4.2). -/
def isYTD (f : RawFiling) : Bool := 120 < f.spanDays

/-- Modelled from the spec: the running pass of `deaccumulate` (§4.2) —
carries the current fiscal year and the cumulative sum of standalone figures
emitted for it, resetting the sum at fiscal-year boundaries; the backend
source is not under `src/`. -/
def deaccumulateGo (curFY : Option ℤ) (cum : ℚ) : List RawFiling → List ℚ
  | [] => []
  | f :: rest =>
    let cum0 : ℚ := if curFY = some f.fiscalYear then cum else 0
    let standalone : ℚ := if isYTD f then f.figure - cum0 else f.figure
    standalone :: deaccumulateGo (some f.fiscalYear) (cum0 + standalone) rest

/-- Modelled from the spec: `deaccumulate` (§4.2) corrects cumulative
year-to-date figures into standalone quarterly figures. -/
def deaccumulate (filings : List RawFiling) : List ℚ :=
  deaccumulateGo none 0 filings

/-- The sum of already-deaccumulated figures belonging to the current run of
fiscal year `g` (the run stops at the first earlier filing of a different
fiscal year — a fiscal-year boundary). -/
def sumSameFY (prior : List (ℤ × ℚ)) (g : ℤ) : ℚ :=
  ((prior.takeWhile (fun p => decide (p.1 = g))).map Prod.snd).sum

/-- The spec sentence as a program, for refinement: each YTD filing's
standalone figure is the YTD figure minus the sum of already-deaccumulated
prior quarters in the same fiscal year (`prior` holds the emitted figures,
most recent first); Q1 (non-YTD) filings pass through unchanged. -/
def deaccumulateSpecGo (prior : List (ℤ × ℚ)) : List RawFiling → List ℚ
  | [] => []
  | f :: rest =>
    let s : ℚ :=
      if isYTD f then f.figure - sumSameFY prior f.fiscalYear else f.figure
    s :: deaccumulateSpecGo ((f.fiscalYear, s) :: prior) rest

/-- The spec-sentence version of `deaccumulate`. -/
def deaccumulateSpec (filings : List RawFiling) : List ℚ :=
  deaccumulateSpecGo [] filings

lemma sumSameFY_cons_same (fy : ℤ) (s : ℚ) (prior : List (ℤ × ℚ)) :
    sumSameFY ((fy, s) :: prior) fy = s + sumSameFY prior fy := by
  simp [sumSameFY, List.takeWhile_cons]

lemma sumSameFY_cons_ne {fy g : ℤ} (h : fy ≠ g) (s : ℚ)
    (prior : List (ℤ × ℚ)) : sumSameFY ((fy, s) :: prior) g = 0 := by
  simp [sumSameFY, List.takeWhile_cons, h]

/-- The running pass refines the spec sentence: the carried cumulative sum
always equals the sum of already-emitted figures in the current fiscal-year
run. -/
lemma deaccumulateGo_eq_spec (fs : List RawFiling) :
    ∀ (curFY : Option ℤ) (cum : ℚ) (prior : List (ℤ × ℚ)),
    (∀ g : ℤ, (if curFY = some g then cum else 0) = sumSameFY prior g) →
    deaccumulateGo curFY cum fs = deaccumulateSpecGo prior fs := by
  induction fs with
  | nil => intro curFY cum prior _ ; rfl
  | cons f rest ih =>
    intro curFY cum prior hinv
    simp only [deaccumulateGo, deaccumulateSpecGo]
    rw [hinv f.fiscalYear]
    congr 1
    apply ih
    intro g
    by_cases hg : f.fiscalYear = g
    · subst hg
      rw [sumSameFY_cons_same]
      simp [add_comm]
    · rw [sumSameFY_cons_ne hg]
      simp [Option.some_inj, hg]

/-- C5: `deaccumulate` computes exactly what the spec sentence prescribes —
each YTD filing becomes its YTD figure minus the sum of already-deaccumulated
prior quarters of the same fiscal year, Q1 (non-YTD) filings pass through
unchanged, and the running sum resets at fiscal-year boundaries — and on the
spec's example YTD figures [Q1=100, H1=250, 9mo=420] it yields standalone
quarters [100, 150, 170]. -/
theorem C5_deaccumulate_spec :
    (∀ fs : List RawFiling, deaccumulate fs = deaccumulateSpec fs) ∧
    deaccumulate
      [⟨2024, 90, 100⟩, ⟨2024, 181, 250⟩, ⟨2024, 273, 420⟩] =
      [100, 150, 170] := by
  constructor
  · intro fs
    apply deaccumulateGo_eq_spec
    intro g
    simp [sumSameFY]
  · norm_num [deaccumulate, deaccumulateGo, isYTD]

/-! ## Cache TTLs and hook staleness constants -/

/-- Modelled from the spec: price cache TTL during market hours, 15 min
(§5), in milliseconds; the backend source is not under `src/`. -/
def pricesTTLMarketOpen : ℕ := 15 * 60 * 1000

/-- Modelled from the spec: price cache TTL while the market is closed, 24 h
(§5), in milliseconds. -/
def pricesTTLMarketClosed : ℕ := 24 * 60 * 60 * 1000

/-- Modelled from the spec: fundamentals cache TTL, 24 h (§5), ms. -/
def fundamentalsTTL : ℕ := 24 * 60 * 60 * 1000

/-- Modelled from the spec: company-profile cache TTL, 24 h (§5), ms. -/
def companyProfileTTL : ℕ := 24 * 60 * 60 * 1000

/-- Modelled from the spec: news cache TTL, 1 h (§5), ms. -/
def newsTTL : ℕ := 60 * 60 * 1000

/-- Modelled from the spec: Scorecard/Technical/Fundamental artifact cache
TTL, 30 min (§5), ms. -/
def scorecardArtifactTTL : ℕ := 30 * 60 * 1000

/-- Modelled from the spec: AI-derived artifact cache TTL on success, 6 h
(§5), ms. -/
def aiSuccessTTL : ℕ := 6 * 60 * 60 * 1000

/-- Modelled from the spec: AI-derived artifact cache TTL on error, 5 min
(§5), ms. -/
def aiErrorTTL : ℕ := 5 * 60 * 1000

/-- `staleTime` of `useFundamental` in `src/frontend/src/hooks/useStockData.ts`:
`5 * 60_000`. -/
def useFundamentalStaleTime : ℕ := 5 * 60000

/-- `staleTime` of `useNews` in `useStockData.ts`: `5 * 60_000`. -/
def useNewsStaleTime : ℕ := 5 * 60000

/-- `staleTime` of `useEarnings` in `useStockData.ts`: `10 * 60_000`. -/
def useEarningsStaleTime : ℕ := 10 * 60000

/-- `staleTime` of `useMacroRisk` in `useStockData.ts`: `30 * 60_000`. -/
def useMacroRiskStaleTime : ℕ := 30 * 60000

/-- `staleTime` of `useScorecard` in `useStockData.ts`:
`getRefreshInterval()`. -/
def useScorecardStaleTime (utcDay utcHour : ℕ) : ℕ :=
  getRefreshInterval utcDay utcHour

/-- C7, counterexample: the claim as stated is false — the frontend hooks'
staleness constants do not equal the spec's backend cache TTLs for the
corresponding kinds (fundamentals hook 5 min vs TTL 24 h, news hook 5 min vs
1 h, macro hook 30 min vs 6 h / 5 min, scorecard hook refresh-interval vs
30 min, price refresh-interval 1 min / 5 min vs 15 min / 24 h). -/
theorem C7_ttl_counterexample :
    useFundamentalStaleTime ≠ fundamentalsTTL ∧
    useNewsStaleTime ≠ newsTTL ∧
    useMacroRiskStaleTime ≠ aiSuccessTTL ∧
    useMacroRiskStaleTime ≠ aiErrorTTL ∧
    useScorecardStaleTime 3 15 ≠ scorecardArtifactTTL ∧
    getRefreshInterval 3 15 ≠ pricesTTLMarketOpen ∧
    getRefreshInterval 6 15 ≠ pricesTTLMarketClosed := by
  refine ⟨?_, ?_, ?_, ?_, ?_, ?_, ?_⟩ <;> decide

/-- C7, amended: the backend cache TTLs are the spec's per-kind values —
prices 15 min market-hours / 24 h closed, fundamentals and company profile
24 h, news 1 h, scorecard-family artifacts 30 min, AI-derived artifact 6 h on
success and 5 min on error (the error TTL strictly shorter) — while the
frontend data-hook staleness constants are their own, different values:
`useFundamental` and `useNews` 5 min, `useEarnings` 10 min, `useMacroRisk`
30 min, and `useScorecard` (like the other price-driven hooks) the market
refresh interval of 1 min open / 5 min closed. -/
theorem C7_ttl_constants :
    (pricesTTLMarketOpen = 900000 ∧ pricesTTLMarketClosed = 86400000 ∧
     fundamentalsTTL = 86400000 ∧ companyProfileTTL = 86400000 ∧
     newsTTL = 3600000 ∧ scorecardArtifactTTL = 1800000 ∧
     aiSuccessTTL = 21600000 ∧ aiErrorTTL = 300000 ∧
     aiErrorTTL < aiSuccessTTL) ∧
    (useFundamentalStaleTime = 300000 ∧ useNewsStaleTime = 300000 ∧
     useEarningsStaleTime = 600000 ∧ useMacroRiskStaleTime = 1800000) ∧
    (∀ d h : ℕ, useScorecardStaleTime d h = getRefreshInterval d h ∧
      (getRefreshInterval d h = 60000 ∨ getRefreshInterval d h = 300000)) := by
  refine ⟨by decide, by decide, ?_⟩
  intro d h
  refine ⟨rfl, ?_⟩
  unfold getRefreshInterval
  split_ifs <;> simp

/-! ## Formatting (`src/frontend/src/utils/formatting.ts`) -/

/-- The character of a single decimal digit. -/
def digitCh (d : ℕ) : Char := Char.ofNat (48 + d)

/-- Little-endian decimal digits of `n` (with `fuel ≥ n` enough steps);
empty for `n = 0`. -/
def natDigitsRev (fuel n : ℕ) : List ℕ :=
  match fuel with
  | 0 => []
  | fuel + 1 => if n = 0 then [] else n % 10 :: natDigitsRev fuel (n / 10)

/-- Big-endian decimal digit characters of `n`; empty for `n = 0`. -/
def natDigitList (n : ℕ) : List Char :=
  ((natDigitsRev n n).map digitCh).reverse

/-- Left-pad with `'0'` to length `k`. -/
def padZeros (l : List Char) (k : ℕ) : List Char :=
  List.replicate (k - l.length) '0' ++ l

/-- Insert a `','` after every third character (input is the reversed digit
string). -/
def group3aux : List Char → List Char
  | a :: b :: c :: d :: rest => a :: b :: c :: ',' :: group3aux (d :: rest)
  | l => l

/-- Group a big-endian digit string into thousands with `','`. -/
def groupThousands (l : List Char) : List Char :=
  (group3aux l.reverse).reverse

/-- The characters of `jsToFixed d q`. -/
def jsToFixedChars (d : ℕ) (q : ℚ) : List Char :=
  let n : ℕ := (⌊|q| * (10 : ℚ) ^ d + 1 / 2⌋).toNat
  let ds := padZeros (natDigitList n) (d + 1)
  let intPart := ds.take (ds.length - d)
  let fracPart := ds.drop (ds.length - d)
  (if q < 0 then ['-'] else []) ++ intPart ++
    (if d = 0 then [] else '.' :: fracPart)

/-- Model of JavaScript `Number.prototype.toFixed(d)`: round the magnitude to
`d` decimal places (ties away from zero), prepend the sign. -/
def jsToFixed (d : ℕ) (q : ℚ) : String :=
  String.mk (jsToFixedChars d q)

/-- The characters of `jsLocaleString`: sign, comma-grouped integer digits,
fraction digits rounded to `maxFrac` places (ties away from zero) with
trailing zeros trimmed down to `minFrac` digits. -/
def jsLocaleStringChars (minFrac maxFrac : ℕ) (q : ℚ) : List Char :=
  let n : ℕ := (⌊|q| * (10 : ℚ) ^ maxFrac + 1 / 2⌋).toNat
  let ds := padZeros (natDigitList n) (maxFrac + 1)
  let intPart := ds.take (ds.length - maxFrac)
  let fracRaw := ds.drop (ds.length - maxFrac)
  let trimmed := (fracRaw.reverse.dropWhile (fun c => c == '0')).reverse
  let frac := trimmed ++ List.replicate (minFrac - trimmed.length) '0'
  (if q < 0 then ['-'] else []) ++ groupThousands intPart ++
    (if frac.isEmpty then [] else '.' :: frac)

/-- Model of `Number.prototype.toLocaleString('en-US', ...)` with the given
minimum/maximum fraction digits. -/
def jsLocaleString (minFrac maxFrac : ℕ) (q : ℚ) : String :=
  String.mk (jsLocaleStringChars minFrac maxFrac q)

/-- `formatNumber` from `src/frontend/src/utils/formatting.ts`. -/
def formatNumber (value : Option ℚ) : String :=
  match value with
  | none => "N/A"
  | some q => jsLocaleString 0 2 q

/-- `formatCurrency` from `formatting.ts`. -/
def formatCurrency (value : Option ℚ) : String :=
  match value with
  | none => "N/A"
  | some q => "$" ++ jsLocaleString 2 2 q

/-- `formatLargeNumber` from `formatting.ts`: magnitude thresholds 1e12, 1e9,
1e6, 1e3 tested in descending order on the absolute value. -/
def formatLargeNumber (value : Option ℚ) : String :=
  match value with
  | none => "N/A"
  | some q =>
    let abs := |q|
    if 1e12 ≤ abs then jsToFixed 2 (q / 1e12) ++ "T"
    else if 1e9 ≤ abs then jsToFixed 2 (q / 1e9) ++ "B"
    else if 1e6 ≤ abs then jsToFixed 2 (q / 1e6) ++ "M"
    else if 1e3 ≤ abs then jsToFixed 1 (q / 1e3) ++ "K"
    else jsToFixed 2 q

/-- `formatPercent` from `formatting.ts`. -/
def formatPercent (value : Option ℚ) : String :=
  match value with
  | none => "N/A"
  | some q => jsToFixed 2 q ++ "%"

/-- `formatRatio` from `formatting.ts`. -/
def formatRatio (value : Option ℚ) : String :=
  match value with
  | none => "N/A"
  | some q => jsToFixed 2 q

/-- Evaluate the scaled-and-rounded magnitude at concrete inputs. -/
lemma floorToNat_eq {q : ℚ} {n : ℕ} (h1 : (n : ℚ) ≤ q) (h2 : q < n + 1) :
    (⌊q⌋).toNat = n := by
  have : ⌊q⌋ = (n : ℤ) := by
    rw [Int.floor_eq_iff]
    constructor
    · exact_mod_cast h1
    · exact_mod_cast h2
  rw [this]
  rfl

example : jsToFixed 2 (5 : ℚ) = "5.00" := by
  have h : (⌊|(5 : ℚ)| * (10 : ℚ) ^ 2 + 1 / 2⌋).toNat = 500 :=
    floorToNat_eq (by norm_num) (by norm_num)
  have hneg : ¬((5 : ℚ) < 0) := by norm_num
  simp only [jsToFixed, jsToFixedChars, h, hneg, if_false]
  decide

example : jsToFixed 2 (-1 / 2 : ℚ) = "-0.50" := by
  have h : (⌊|(-1 / 2 : ℚ)| * (10 : ℚ) ^ 2 + 1 / 2⌋).toNat = 50 :=
    floorToNat_eq (by rw [abs_div] ; norm_num) (by rw [abs_div] ; norm_num)
  have hneg : ((-1 / 2 : ℚ) < 0) := by norm_num
  simp only [jsToFixed, jsToFixedChars, h, hneg, if_true]
  decide

example : formatNumber (some (3 / 2)) = "1.5" := by
  have h : (⌊|(3 / 2 : ℚ)| * (10 : ℚ) ^ 2 + 1 / 2⌋).toNat = 150 :=
    floorToNat_eq (by rw [abs_div] ; norm_num) (by rw [abs_div] ; norm_num)
  have hneg : ¬((3 / 2 : ℚ) < 0) := by norm_num
  simp only [formatNumber, jsLocaleString, jsLocaleStringChars, h, hneg, if_false]
  decide

example : formatNumber (some 1234567) = "1,234,567" := by
  have h : (⌊|(1234567 : ℚ)| * (10 : ℚ) ^ 2 + 1 / 2⌋).toNat = 123456700 :=
    floorToNat_eq (by norm_num) (by norm_num)
  have hneg : ¬((1234567 : ℚ) < 0) := by norm_num
  simp only [formatNumber, jsLocaleString, jsLocaleStringChars, h, hneg, if_false]
  decide



/-- Every character the formatting layer can emit. -/
def okChars : List Char :=
  ['0', '1', '2', '3', '4', '5', '6', '7', '8', '9', '-', '.', ',', '$', '%',
   'T', 'B', 'M', 'K']

lemma digitCh_mem {d : ℕ} (h : d < 10) : digitCh d ∈ okChars := by
  interval_cases d <;> decide

lemma natDigitsRev_lt : ∀ fuel n : ℕ, ∀ d ∈ natDigitsRev fuel n, d < 10 := by
  intro fuel
  induction fuel with
  | zero => intro n d hd ; simp [natDigitsRev] at hd
  | succ fuel ih =>
    intro n d hd
    simp only [natDigitsRev] at hd
    by_cases hn : n = 0
    · simp [hn] at hd
    · simp only [hn, if_false, List.mem_cons] at hd
      rcases hd with h | h
      · subst h
        exact Nat.mod_lt _ (by norm_num)
      · exact ih _ _ h

lemma natDigitList_mem (n : ℕ) : ∀ c ∈ natDigitList n, c ∈ okChars := by
  intro c hc
  rw [natDigitList, List.mem_reverse, List.mem_map] at hc
  obtain ⟨d, hd, rfl⟩ := hc
  exact digitCh_mem (natDigitsRev_lt n n d hd)

lemma padZeros_mem {l : List Char} {k : ℕ} (hl : ∀ c ∈ l, c ∈ okChars) :
    ∀ c ∈ padZeros l k, c ∈ okChars := by
  intro c hc
  rw [padZeros, List.mem_append] at hc
  rcases hc with h | h
  · rw [List.eq_of_mem_replicate h]
    decide
  · exact hl c h

lemma group3aux_mem :
    ∀ (n : ℕ) (l : List Char), l.length ≤ n →
      ∀ c ∈ group3aux l, c ∈ l ∨ c = ',' := by
  intro n
  induction n with
  | zero =>
    intro l hl c hc
    rw [List.length_eq_zero.mp (Nat.le_zero.mp hl)] at hc ⊢
    simp [group3aux] at hc
  | succ n ih =>
    intro l hl c hc
    match l with
    | [] => simp [group3aux] at hc
    | [a] => simp [group3aux] at hc ; simp [hc]
    | [a, b] => simp [group3aux] at hc ; rcases hc with h | h <;> simp [h]
    | [a, b, c'] => simp [group3aux] at hc ; rcases hc with h | h | h <;> simp [h]
    | a :: b :: c' :: d :: rest =>
      simp only [group3aux, List.mem_cons] at hc
      rcases hc with h | h | h | h | h
      · simp [h]
      · simp [h]
      · simp [h]
      · exact Or.inr h
      · have hlen : (d :: rest).length ≤ n := by
          simp at hl ⊢
          omega
        rcases ih (d :: rest) hlen c h with h' | h'
        · rcases List.mem_cons.mp h' with h'' | h'' <;> simp [h'']
        · exact Or.inr h'

lemma groupThousands_mem {l : List Char} (hl : ∀ c ∈ l, c ∈ okChars) :
    ∀ c ∈ groupThousands l, c ∈ okChars := by
  intro c hc
  rw [groupThousands, List.mem_reverse] at hc
  rcases group3aux_mem l.reverse.length l.reverse (le_refl _) c hc with h | h
  · exact hl c (List.mem_reverse.mp h)
  · rw [h]
    decide

lemma jsToFixedChars_mem (d : ℕ) (q : ℚ) :
    ∀ c ∈ jsToFixedChars d q, c ∈ okChars := by
  intro c hc
  unfold jsToFixedChars at hc
  rcases List.mem_append.mp hc with h | h
  · rcases List.mem_append.mp h with h1 | h1
    · split at h1
      · rw [List.mem_singleton.mp h1]
        decide
      · simp at h1
    · exact padZeros_mem (natDigitList_mem _) c (List.take_subset _ _ h1)
  · split at h
    · simp at h
    · rcases List.mem_cons.mp h with h2 | h2
      · rw [h2]
        decide
      · exact padZeros_mem (natDigitList_mem _) c (List.drop_subset _ _ h2)

lemma jsLocaleStringChars_mem (minFrac maxFrac : ℕ) (q : ℚ) :
    ∀ c ∈ jsLocaleStringChars minFrac maxFrac q, c ∈ okChars := by
  intro c hc
  unfold jsLocaleStringChars at hc
  rcases List.mem_append.mp hc with h | h
  · rcases List.mem_append.mp h with h1 | h1
    · split at h1
      · rw [List.mem_singleton.mp h1]
        decide
      · simp at h1
    · exact groupThousands_mem
        (fun c hc => padZeros_mem (natDigitList_mem _) c
          (List.take_subset _ _ hc)) c h1
  · split at h
    · simp at h
    · rcases List.mem_cons.mp h with h2 | h2
      · rw [h2]
        decide
      · rcases List.mem_append.mp h2 with h3 | h3
        · have h4 := (List.mem_reverse).mp h3
          have h5 := List.dropWhile_subset _ h4
          have h6 := (List.mem_reverse).mp h5
          exact padZeros_mem (natDigitList_mem _) c (List.drop_subset _ _ h6)
        · rw [List.eq_of_mem_replicate h3]
          decide

lemma ne_NA_of_chars {s : String} (h : ∀ c ∈ s.data, c ∈ okChars) :
    s ≠ "N/A" := by
  intro he
  subst he
  exact absurd (h 'N' (by decide)) (by decide)

lemma append_chars {s t : String} (hs : ∀ c ∈ s.data, c ∈ okChars)
    (ht : ∀ c ∈ t.data, c ∈ okChars) : ∀ c ∈ (s ++ t).data, c ∈ okChars := by
  intro c hc
  rw [show (s ++ t).data = s.data ++ t.data from rfl] at hc
  rcases List.mem_append.mp hc with h | h
  · exact hs c h
  · exact ht c h

lemma jsToFixed_chars (d : ℕ) (q : ℚ) :
    ∀ c ∈ (jsToFixed d q).data, c ∈ okChars :=
  fun c hc => jsToFixedChars_mem d q c hc

lemma jsLocaleString_chars (minFrac maxFrac : ℕ) (q : ℚ) :
    ∀ c ∈ (jsLocaleString minFrac maxFrac q).data, c ∈ okChars :=
  fun c hc => jsLocaleStringChars_mem minFrac maxFrac q c hc

lemma formatLargeNumber_chars (q : ℚ) :
    ∀ c ∈ (formatLargeNumber (some q)).data, c ∈ okChars := by
  unfold formatLargeNumber
  dsimp only
  split_ifs <;>
    first
      | exact append_chars (jsToFixed_chars _ _) (by decide)
      | exact jsToFixed_chars _ _

/-- The five magnitude regions of `formatLargeNumber`. -/
lemma mag_cases (q : ℚ) :
    (1e12 ≤ |q|) ∨ (1e9 ≤ |q| ∧ |q| < 1e12) ∨ (1e6 ≤ |q| ∧ |q| < 1e9) ∨
    (1e3 ≤ |q| ∧ |q| < 1e6) ∨ |q| < 1e3 := by
  rcases le_or_lt 1e12 |q| with h12 | h12
  · exact Or.inl h12
  rcases le_or_lt 1e9 |q| with h9 | h9
  · exact Or.inr (Or.inl ⟨h9, h12⟩)
  rcases le_or_lt 1e6 |q| with h6 | h6
  · exact Or.inr (Or.inr (Or.inl ⟨h6, h9⟩))
  rcases le_or_lt 1e3 |q| with h3 | h3
  · exact Or.inr (Or.inr (Or.inr (Or.inl ⟨h3, h6⟩)))
  · exact Or.inr (Or.inr (Or.inr (Or.inr h3)))

lemma formatLargeNumber_bands (q : ℚ) :
    (1e12 ≤ |q| → formatLargeNumber (some q) = jsToFixed 2 (q / 1e12) ++ "T") ∧
    (1e9 ≤ |q| ∧ |q| < 1e12 →
      formatLargeNumber (some q) = jsToFixed 2 (q / 1e9) ++ "B") ∧
    (1e6 ≤ |q| ∧ |q| < 1e9 →
      formatLargeNumber (some q) = jsToFixed 2 (q / 1e6) ++ "M") ∧
    (1e3 ≤ |q| ∧ |q| < 1e6 →
      formatLargeNumber (some q) = jsToFixed 1 (q / 1e3) ++ "K") ∧
    (|q| < 1e3 → formatLargeNumber (some q) = jsToFixed 2 q) := by
  unfold formatLargeNumber
  dsimp only
  split_ifs with h1 h2 h3 h4 <;>
    refine ⟨?_, ?_, ?_, ?_, ?_⟩ <;>
    first
      | (intro a ; rfl)
      | (intro a ; exfalso ; linarith [a.1, a.2])
      | (intro a ; exfalso ; linarith)

lemma formatLargeNumber_exactly_one (q : ℚ) :
    ((if 1e12 ≤ |q| then 1 else 0) +
     (if 1e9 ≤ |q| ∧ |q| < 1e12 then 1 else 0) +
     (if 1e6 ≤ |q| ∧ |q| < 1e9 then 1 else 0) +
     (if 1e3 ≤ |q| ∧ |q| < 1e6 then 1 else 0) +
     (if |q| < 1e3 then 1 else 0) : ℕ) = 1 := by
  rcases mag_cases q with h | ⟨ha, hb⟩ | ⟨ha, hb⟩ | ⟨ha, hb⟩ | h
  · rw [if_pos h, if_neg (by rintro ⟨_, hy⟩ ; linarith),
      if_neg (by rintro ⟨_, hy⟩ ; linarith),
      if_neg (by rintro ⟨_, hy⟩ ; linarith), if_neg (by intro hy ; linarith)]
  · rw [if_neg (by intro hy ; linarith), if_pos ⟨ha, hb⟩,
      if_neg (by rintro ⟨_, hy⟩ ; linarith),
      if_neg (by rintro ⟨_, hy⟩ ; linarith), if_neg (by intro hy ; linarith)]
  · rw [if_neg (by intro hy ; linarith),
      if_neg (by rintro ⟨hy, _⟩ ; linarith), if_pos ⟨ha, hb⟩,
      if_neg (by rintro ⟨_, hy⟩ ; linarith), if_neg (by intro hy ; linarith)]
  · rw [if_neg (by intro hy ; linarith),
      if_neg (by rintro ⟨hy, _⟩ ; linarith),
      if_neg (by rintro ⟨hy, _⟩ ; linarith), if_pos ⟨ha, hb⟩,
      if_neg (by intro hy ; linarith)]
  · rw [if_neg (by intro hy ; linarith),
      if_neg (by rintro ⟨hy, _⟩ ; linarith),
      if_neg (by rintro ⟨hy, _⟩ ; linarith),
      if_neg (by rintro ⟨hy, _⟩ ; linarith), if_pos h]

/-- C9: every public formatting function is total over `number | null |
undefined` — it returns "N/A" exactly on `null`/`undefined` and a formatted
string (never "N/A", never a thrown error) on every number; and in
`formatLargeNumber` the descending magnitude thresholds 1e12, 1e9, 1e6, 1e3
on the absolute value select exactly one suffix branch. -/
theorem C9_formatting_total :
    (formatNumber none = "N/A" ∧ formatCurrency none = "N/A" ∧
     formatLargeNumber none = "N/A" ∧ formatPercent none = "N/A" ∧
     formatRatio none = "N/A") ∧
    (∀ q : ℚ,
      formatNumber (some q) ≠ "N/A" ∧ formatCurrency (some q) ≠ "N/A" ∧
      formatLargeNumber (some q) ≠ "N/A" ∧ formatPercent (some q) ≠ "N/A" ∧
      formatRatio (some q) ≠ "N/A") ∧
    (∀ q : ℚ,
      (1e12 ≤ |q| →
        formatLargeNumber (some q) = jsToFixed 2 (q / 1e12) ++ "T") ∧
      (1e9 ≤ |q| ∧ |q| < 1e12 →
        formatLargeNumber (some q) = jsToFixed 2 (q / 1e9) ++ "B") ∧
      (1e6 ≤ |q| ∧ |q| < 1e9 →
        formatLargeNumber (some q) = jsToFixed 2 (q / 1e6) ++ "M") ∧
      (1e3 ≤ |q| ∧ |q| < 1e6 →
        formatLargeNumber (some q) = jsToFixed 1 (q / 1e3) ++ "K") ∧
      (|q| < 1e3 → formatLargeNumber (some q) = jsToFixed 2 q)) ∧
    (∀ q : ℚ,
      ((if 1e12 ≤ |q| then 1 else 0) +
       (if 1e9 ≤ |q| ∧ |q| < 1e12 then 1 else 0) +
       (if 1e6 ≤ |q| ∧ |q| < 1e9 then 1 else 0) +
       (if 1e3 ≤ |q| ∧ |q| < 1e6 then 1 else 0) +
       (if |q| < 1e3 then 1 else 0) : ℕ) = 1) := by
  refine ⟨⟨rfl, rfl, rfl, rfl, rfl⟩, ?_,
    fun q => formatLargeNumber_bands q,
    fun q => formatLargeNumber_exactly_one q⟩
  intro q
  refine ⟨?_, ?_, ?_, ?_, ?_⟩
  · exact ne_NA_of_chars (jsLocaleString_chars 0 2 q)
  · exact ne_NA_of_chars (append_chars (by decide) (jsLocaleString_chars 2 2 q))
  · exact ne_NA_of_chars (formatLargeNumber_chars q)
  · exact ne_NA_of_chars (append_chars (jsToFixed_chars 2 q) (by decide))
  · exact ne_NA_of_chars (jsToFixed_chars 2 q)

/-- C9 witness: 2.5 billion falls in the `B` band and a percentage is never
"N/A". -/
theorem C9_formatting_total_witness :
    ((1e9 ≤ |(2500000000 : ℚ)| ∧ |(2500000000 : ℚ)| < 1e12) ∧
      formatLargeNumber (some 2500000000) =
        jsToFixed 2 (2500000000 / 1e9) ++ "B") ∧
    formatPercent (some 12) ≠ "N/A" :=
  ⟨⟨⟨by norm_num, by norm_num⟩,
    (C9_formatting_total.2.2.1 2500000000).2.1 ⟨by norm_num, by norm_num⟩⟩,
   (C9_formatting_total.2.1 12).2.2.2.1⟩

end StockCerebro
